import Mathlib

/-!
Shallow embedding of the SaySomething survey server
(`public/project/main.js`): the JSON-like answer values, the response
validator `validateResponse`, the in-memory survey registry with its API
handlers (`POST /api/surveys`, `PUT /api/surveys/:id`,
`POST /api/surveys/:id/responses`, `GET /api/surveys/:id/results`)
and the per-question results aggregation, translated function by function
from the source.  HTTP transport, QR codes, CSV export and the static
pages are glue and are not modelled; timestamps and random tokens are
passed in as explicit parameters.
-/

namespace SaySomething

/-- A JSON-like value as it appears in a request body or a stored
response.  Numbers are restricted to the integer-valued JS numbers that
the survey data uses (`vNum`); `vNull` is JSON `null`; an absent object
property (JS `undefined`) is modelled by `Option.none` at use sites. -/
inductive Value where
  | vStr (s : String)
  | vNum (n : Int)
  | vArr (elems : List Value)
  | vNull
deriving Repr

/-- JS truthiness of a defined value: `''`, `0` and `null` are falsy;
every array (including the empty array) is truthy. -/
def Value.truthy : Value → Bool
  | .vStr s => !s.isEmpty
  | .vNum n => n != 0
  | .vArr _ => true
  | .vNull => false

/-- Truthiness of a possibly-undefined value (`undefined` is falsy).
This is the test `if (answer)` / `!answer` used throughout the source. -/
def answerTruthy : Option Value → Bool
  | none => false
  | some v => v.truthy

mutual

/-- JS `String(v)` on an answer value.  Arrays stringify as their
elements joined with `","`, with `null` elements becoming `""`. -/
def jsToString : Value → String
  | .vStr s => s
  | .vNum n => toString n
  | .vNull => "null"
  | .vArr elems => String.intercalate "," (jsToStringElems elems)

/-- Stringification of the elements of an array, as in
`Array.prototype.join`: `null` becomes the empty string. -/
def jsToStringElems : List Value → List String
  | [] => []
  | .vNull :: rest => "" :: jsToStringElems rest
  | v :: rest => jsToString v :: jsToStringElems rest

end

def isDigitChar (c : Char) : Bool := '0' ≤ c && c ≤ '9'

def isHexDigitChar (c : Char) : Bool :=
  isDigitChar c || ('a' ≤ c && c ≤ 'f') || ('A' ≤ c && c ≤ 'F')

def hexVal (c : Char) : Nat :=
  if isDigitChar c then c.toNat - '0'.toNat
  else if 'a' ≤ c && c ≤ 'f' then c.toNat - 'a'.toNat + 10
  else c.toNat - 'A'.toNat + 10

def digitsToNat (base : Nat) (cs : List Char) : Nat :=
  cs.foldl (fun acc c => base * acc + hexVal c) 0

/-- Whitespace skipped by JS `parseInt` (the common ASCII cases). -/
def isJsSpace (c : Char) : Bool :=
  c = ' ' || c = '\t' || c = '\n' || c = '\r'

/-- After sign handling, JS `parseInt` with no radix argument reads a
`0x`/`0X` hex literal or a longest decimal-digit prefix; no digits means
`NaN`, modelled as `none`. -/
def parseIntDigits (sign : Int) (cs : List Char) : Option Int :=
  match cs with
  | '0' :: 'x' :: rest =>
      let ds := rest.takeWhile isHexDigitChar
      if ds.isEmpty then none else some (sign * (digitsToNat 16 ds : Nat))
  | '0' :: 'X' :: rest =>
      let ds := rest.takeWhile isHexDigitChar
      if ds.isEmpty then none else some (sign * (digitsToNat 16 ds : Nat))
  | _ =>
      let ds := cs.takeWhile isDigitChar
      if ds.isEmpty then none else some (sign * (digitsToNat 10 ds : Nat))

/-- JS `parseInt(s)` (no radix argument): skip leading whitespace, read
an optional sign, then digits; `NaN` is modelled as `none`. -/
def jsParseInt (s : String) : Option Int :=
  match s.toList.dropWhile isJsSpace with
  | '-' :: rest => parseIntDigits (-1) rest
  | '+' :: rest => parseIntDigits 1 rest
  | rest => parseIntDigits 1 rest

/-- JS `parseInt(v)` on a possibly-undefined value: `undefined`
stringifies to `"undefined"` and `null` to `"null"`, neither of which
parses, so both give `NaN` (`none`). -/
def jsParseIntVal : Option Value → Option Int
  | none => none
  | some v => jsParseInt (jsToString v)

/-- One `{id, label}` entry of a choice question's `options` array. -/
structure ChoiceOption where
  id : String
  label : String
deriving Repr, DecidableEq

/-- A question as stored in a survey: the shared base `{id, text, type,
required}` plus the type-specific fields (`options` for the choice
types, `minValue`/`maxValue` for `scale`); `type` is the source's
string tag (`"text"`, `"single-choice"`, `"multiple-choice"`,
`"scale"`). -/
structure Question where
  id : String
  text : String
  type : String
  required : Bool
  options : List ChoiceOption
  minValue : Int
  maxValue : Int
deriving Repr, DecidableEq

/-- A stored response: `{id, data, submittedAt}`; `data` is the raw
submitted answer map (a JS object, modelled as an association list with
unique keys), `submittedAt` is the clock value at submission. -/
structure Response where
  id : String
  data : List (String × Value)
  submittedAt : Nat
deriving Repr

/-- A survey record as stored in `store.surveys`. -/
structure Survey where
  id : String
  title : String
  description : String
  questions : List Question
  responses : List Response
  createdAt : Nat
  adminToken : String
  updatedAt : Option Nat
deriving Repr

/-- JS object property read `obj[key]` on an association list with
unique keys; an absent key is `undefined` (`none`). -/
def jsGet : List (String × Value) → String → Option Value
  | [], _ => none
  | (k, v) :: rest, key => if k = key then some v else jsGet rest key

-- ===== validateResponse =====

def requiredMessage (q : Question) : String :=
  "Question \"" ++ q.text ++ "\" is required"

def mustBeTextMessage (q : Question) : String :=
  "Question \"" ++ q.text ++ "\" must be text"

def tooLongMessage (q : Question) : String :=
  "Question \"" ++ q.text ++ "\" response too long (max 5000 chars)"

def invalidOptionMessage (q : Question) : String :=
  "Invalid option selected for \"" ++ q.text ++ "\""

def scaleRangeMessage (q : Question) : String :=
  "Scale answer for \"" ++ q.text ++ "\" must be between " ++
    toString q.minValue ++ " and " ++ toString q.maxValue

/-- JS `typeof answer === 'string'`. -/
def isStringVal : Value → Bool
  | .vStr _ => true
  | _ => false

/-- JS `answer.length > 5000`: strings and arrays have a `length`;
for other values `.length` is `undefined` and the comparison is false. -/
def jsLengthGt5000 : Value → Bool
  | .vStr s => decide (s.length > 5000)
  | .vArr elems => decide (elems.length > 5000)
  | _ => false

/-- JS `validOptions.includes(a)`: strict equality against the declared
option-id strings, so only a string equal to a declared id matches. -/
def valueIsOptionId (validOptions : List String) (v : Value) : Bool :=
  match v with
  | .vStr s => validOptions.contains s
  | _ => false

/-- The per-question body of `validateResponse`, applied to
`answer = response[question.id]`: the `required` presence test (JS
truthiness) with `continue`, then the `switch` on `question.type`. -/
def validateQuestionAnswer (q : Question) (answer : Option Value) : List String :=
  if q.required && !(answerTruthy answer) then
    [requiredMessage q]
  else
    match q.type with
    | "text" =>
        (if answerTruthy answer &&
            !(match answer with | some v => isStringVal v | none => false) then
          [mustBeTextMessage q] else [])
        ++ (if answerTruthy answer &&
            (match answer with | some v => jsLengthGt5000 v | none => false) then
          [tooLongMessage q] else [])
    | "multiple-choice" =>
        if answerTruthy answer then
          let validOptions := q.options.map (fun opt => opt.id)
          match answer with
          | some (.vArr elems) =>
              if !(elems.all (fun a => valueIsOptionId validOptions a)) then
                [invalidOptionMessage q]
              else []
          | some v =>
              if !(valueIsOptionId validOptions v) then [invalidOptionMessage q] else []
          | none => []
        else []
    | "single-choice" =>
        if answerTruthy answer then
          let validOptions := q.options.map (fun opt => opt.id)
          match answer with
          | some (.vArr elems) =>
              if !(elems.all (fun a => valueIsOptionId validOptions a)) then
                [invalidOptionMessage q]
              else []
          | some v =>
              if !(valueIsOptionId validOptions v) then [invalidOptionMessage q] else []
          | none => []
        else []
    | "scale" =>
        if answerTruthy answer then
          match jsParseIntVal answer with
          | none => [scaleRangeMessage q]
          | some num =>
              if num < q.minValue ∨ num > q.maxValue then [scaleRangeMessage q] else []
        else []
    | _ => []

/-- One loop iteration of `validateResponse`: read
`answer = response[question.id]` and check it. -/
def validateQuestion (response : List (String × Value)) (q : Question) : List String :=
  validateQuestionAnswer q (jsGet response q.id)

/-- `validateResponse(survey, response)`: the `errors` array pushed to
while looping over `survey.questions` in order. -/
def validateResponse (survey : Survey) (response : List (String × Value)) : List String :=
  survey.questions.foldl (fun errors q => errors ++ validateQuestion response q) []

-- ===== Survey registry state and API handlers =====

/-- A question object as it arrives in a creation/update request body:
like `Question` but the creator may omit the `id` (or send an empty
one); `{...q, id: q.id || `q_${idx}`}` then assigns one. -/
structure QuestionInput where
  id : Option String
  text : String
  type : String
  required : Bool
  options : List ChoiceOption
  minValue : Int
  maxValue : Int
deriving Repr, DecidableEq

/-- JS truthiness of a possibly-undefined string (`app.locals` fields,
`q.id`): absent or empty is falsy. -/
def jsTruthyOptStr : Option String → Bool
  | none => false
  | some s => !s.isEmpty

/-- `{...q, id: q.id || `q_${idx}`}`: a falsy (missing or empty) id is
replaced by the position-derived one. -/
def assignQuestionId (idx : Nat) (q : QuestionInput) : Question :=
  { id := match q.id with
      | some s => if s.isEmpty then "q_" ++ toString idx else s
      | none => "q_" ++ toString idx
    text := q.text
    type := q.type
    required := q.required
    options := q.options
    minValue := q.minValue
    maxValue := q.maxValue }

/-- Helper for `questions.map((q, idx) => ...)` carrying the index. -/
def assignQuestionIdsFrom (start : Nat) : List QuestionInput → List Question
  | [] => []
  | q :: rest => assignQuestionId start q :: assignQuestionIdsFrom (start + 1) rest

/-- `questions.map((q, idx) => ({...q, id: q.id || `q_${idx}`}))`. -/
def assignQuestionIds (qs : List QuestionInput) : List Question :=
  assignQuestionIdsFrom 0 qs

/-- Full mutable server state: the in-memory `store` (`surveys` object
and `nextId` counter) together with the `app.locals` fields that
implement the single-active-survey policy. -/
structure RegistryState where
  surveys : List (String × Survey)
  nextId : Nat
  currentSurveyId : Option String
  currentSurveyAdminToken : Option String
deriving Repr

/-- Property read `store.surveys[surveyId]`. -/
def storeGet : List (String × Survey) → String → Option Survey
  | [], _ => none
  | (k, s) :: rest, key => if k = key then some s else storeGet rest key

/-- Property write `store.surveys[surveyId] = survey`: overwrites an
existing key in place, otherwise appends a new one. -/
def storeSet : List (String × Survey) → String → Survey → List (String × Survey)
  | [], key, s => [(key, s)]
  | (k, old) :: rest, key, s =>
      if k = key then (key, s) :: rest else (k, old) :: storeSet rest key s

/-- The error outcomes of the API handlers, by response status:
404, 403, 409 (echoing the active survey id), 400 on malformed
creation/update payload, and 400 with the validator's error list. -/
inductive ApiError where
  | notFound
  | unauthorized
  | alreadyActive (existingId : String)
  | invalidData
  | validationFailed (errors : List String)
deriving Repr

/-- The body of `POST /api/surveys` after the already-active guard:
reject a falsy title or a missing/empty questions array, otherwise
build the survey (id `survey_${store.nextId++}`, `description || ''`,
assigned question ids, empty responses) and record it as the active
survey.  `now` stands for `new Date()`, `freshToken` for the generated
`Math.random()` admin token; the handler's `clientUrl`/`adminUrl`
strings are transport glue and are not modelled. -/
def createSurveyBody (st : RegistryState) (title description : Option String)
    (questions : Option (List QuestionInput)) (now : Nat) (freshToken : String) :
    RegistryState × Except ApiError Survey :=
  match title, questions with
  | some t, some qs =>
      if t.isEmpty || qs.isEmpty then (st, .error .invalidData)
      else
        let surveyId := "survey_" ++ toString st.nextId
        let survey : Survey :=
          { id := surveyId
            title := t
            description := description.getD ""
            questions := assignQuestionIds qs
            responses := []
            createdAt := now
            adminToken := freshToken
            updatedAt := none }
        ({ st with
            surveys := storeSet st.surveys surveyId survey
            nextId := st.nextId + 1
            currentSurveyId := some surveyId
            currentSurveyAdminToken := some freshToken },
          .ok survey)
  | _, _ => (st, .error .invalidData)

/-- `POST /api/surveys`: if `app.locals.currentSurveyId` is truthy the
creation is rejected with 409 echoing that id; otherwise the survey is
created. -/
def createSurvey (st : RegistryState) (title description : Option String)
    (questions : Option (List QuestionInput)) (now : Nat) (freshToken : String) :
    RegistryState × Except ApiError Survey :=
  if jsTruthyOptStr st.currentSurveyId then
    (st, .error (.alreadyActive (st.currentSurveyId.getD "")))
  else
    createSurveyBody st title description questions now freshToken

/-- `PUT /api/surveys/:surveyId`: 404 on unknown id, 403 unless
`req.query.token !== survey.adminToken` fails (an absent token never
matches), 400 on malformed payload; otherwise replace
title/description/questions (re-assigning question ids) and stamp
`updatedAt`, leaving id, adminToken, responses and createdAt as they
were. -/
def updateSurvey (st : RegistryState) (surveyId : String) (token : Option String)
    (title description : Option String) (questions : Option (List QuestionInput))
    (now : Nat) : RegistryState × Except ApiError Survey :=
  match storeGet st.surveys surveyId with
  | none => (st, .error .notFound)
  | some survey =>
      if token ≠ some survey.adminToken then (st, .error .unauthorized)
      else
        match title, questions with
        | some t, some qs =>
            if t.isEmpty || qs.isEmpty then (st, .error .invalidData)
            else
              let survey' : Survey :=
                { survey with
                    title := t
                    description := description.getD ""
                    questions := assignQuestionIds qs
                    updatedAt := some now }
              ({ st with surveys := storeSet st.surveys surveyId survey' }, .ok survey')
        | _, _ => (st, .error .invalidData)

/-- `POST /api/surveys/:surveyId/responses`: 404 on unknown id, 400
with the violation list if validation fails, otherwise append
`{id, data: req.body, submittedAt}` to `survey.responses` and return
the fresh response id (`freshId` stands for the generated
`response_${Date.now()}_${...}` string). -/
def submitResponse (st : RegistryState) (surveyId : String)
    (body : List (String × Value)) (freshId : String) (now : Nat) :
    RegistryState × Except ApiError String :=
  match storeGet st.surveys surveyId with
  | none => (st, .error .notFound)
  | some survey =>
      let errors := validateResponse survey body
      if errors.isEmpty then
        let response : Response := { id := freshId, data := body, submittedAt := now }
        let survey' : Survey := { survey with responses := survey.responses ++ [response] }
        ({ st with surveys := storeSet st.surveys surveyId survey' }, .ok freshId)
      else (st, .error (.validationFailed errors))

-- ===== Results aggregation (GET /api/surveys/:surveyId/results) =====

/-- One entry of the aggregated `options` array of a choice question:
`{id, label, count}`. -/
structure ChoiceCount where
  id : String
  label : String
  count : Nat
deriving Repr, DecidableEq

/-- The type-dependent part of a per-question summary: collected text
answers, per-option counts, or the parsed scale values with their
`toFixed(2)` average (represented as the integer number of hundredths,
`none` for JS `null`); questions of an unknown type get none of these
extra fields. -/
inductive AggBody where
  | textBody (responses : List Value)
  | choiceBody (options : List ChoiceCount)
  | scaleBody (values : List Int) (average : Option Int)
  | noBody
deriving Repr

/-- A per-question summary `{id, text, type, ...}` in the results. -/
structure QuestionResult where
  id : String
  text : String
  type : String
  body : AggBody
deriving Repr

/-- The results payload `{surveyId, title, totalResponses, questions}`. -/
structure ResultsOut where
  surveyId : String
  title : String
  totalResponses : Nat
  questions : List QuestionResult
deriving Repr

/-- Text aggregation: `survey.responses.map(r => r.data[qid]).filter(Boolean)`. -/
def textAnswers (responses : List Response) (qid : String) : List Value :=
  (responses.map (fun r => jsGet r.data qid)).filterMap (fun a =>
    match a with
    | some v => if v.truthy then some v else none
    | none => none)

/-- The `optionCounts` accumulator object: an association list of
`opt.id ↦ (label, count)` in insertion order. -/
def ocSet (m : List (String × String × Nat)) (k lbl : String) :
    List (String × String × Nat) :=
  match m with
  | [] => [(k, lbl, 0)]
  | e :: rest => if e.1 = k then (k, lbl, 0) :: rest else e :: ocSet rest k lbl

/-- `question.options.forEach(opt => optionCounts[opt.id] = {label, count: 0})`. -/
def initOptionCounts (opts : List ChoiceOption) : List (String × String × Nat) :=
  opts.foldl (fun m opt => ocSet m opt.id opt.label) []

/-- `if (optionCounts[a]) optionCounts[a].count++`: the property key is
the stringification of the answer element; the entry with that key (if
any) has its count bumped, an undeclared key is ignored. -/
def incKey : List (String × String × Nat) → String → List (String × String × Nat)
  | [], _ => []
  | e :: rest, k => (if e.1 = k then (e.1, e.2.1, e.2.2 + 1) else e) :: incKey rest k

/-- The body of the per-response `forEach` of choice aggregation: a
falsy or absent answer is skipped, an array answer increments per
element, any other answer increments once. -/
def applyChoiceAnswer (m : List (String × String × Nat)) (answer : Option Value) :
    List (String × String × Nat) :=
  match answer with
  | some v =>
      if v.truthy then
        match v with
        | .vArr elems => elems.foldl (fun m a => incKey m (jsToString a)) m
        | _ => incKey m (jsToString v)
      else m
  | none => m

/-- Choice aggregation: initialise `optionCounts` from the declared
options, fold the responses over it, and render
`Object.entries(optionCounts)` as `{id, label, count}` records.  (The
entries are listed in key-insertion order; JS would list array-index-like
keys first, a reordering the surveys' non-numeric option ids never
trigger.) -/
def choiceResults (responses : List Response) (qid : String)
    (opts : List ChoiceOption) : List ChoiceCount :=
  ((responses.foldl (fun m r => applyChoiceAnswer m (jsGet r.data qid))
      (initOptionCounts opts)).map
    (fun e => { id := e.1, label := e.2.1, count := e.2.2 }))

/-- Scale aggregation values:
`responses.map(r => parseInt(r.data[qid])).filter(v => !isNaN(v))`,
with `NaN` modelled as `none` and the kept values extracted. -/
def scaleVals (responses : List Response) (qid : String) : List Int :=
  (responses.map (fun r => jsParseIntVal (jsGet r.data qid))).filterMap id

/-- JS `x.toFixed(2)` on the exact rational value of the average,
represented as the integer number of hundredths: ties pick the larger
candidate, which is `round` on `ℚ`.  (The double-precision arithmetic
of the source is modelled as exact rational arithmetic.) -/
def toFixed2 (x : ℚ) : Int :=
  round (100 * x)

/-- `scaleValues.reduce((a, b) => a + b, 0) / scaleValues.length`. -/
def ratAvg (vals : List Int) : ℚ :=
  ((vals.sum : Int) : ℚ) / (vals.length : ℚ)

/-- One per-question summary of the results route: the `switch` on
`question.type`. -/
def aggregateQuestion (responses : List Response) (q : Question) : QuestionResult :=
  { id := q.id
    text := q.text
    type := q.type
    body :=
      match q.type with
      | "text" => .textBody (textAnswers responses q.id)
      | "single-choice" => .choiceBody (choiceResults responses q.id q.options)
      | "multiple-choice" => .choiceBody (choiceResults responses q.id q.options)
      | "scale" =>
          let vals := scaleVals responses q.id
          .scaleBody vals
            (if vals.length > 0 then some (toFixed2 (ratAvg vals)) else none)
      | _ => .noBody }

/-- The `results` object of `GET /api/surveys/:surveyId/results`. -/
def aggregateSurvey (survey : Survey) : ResultsOut :=
  { surveyId := survey.id
    title := survey.title
    totalResponses := survey.responses.length
    questions := survey.questions.map (aggregateQuestion survey.responses) }

/-- `GET /api/surveys/:surveyId/results`: 404 on unknown id; 403 only
when a truthy (non-empty) token is supplied and differs from
`survey.adminToken`; otherwise the freshly computed aggregate.  The
handler performs no mutation, which the explicit state passing
records. -/
def getResults (st : RegistryState) (surveyId : String) (token : Option String) :
    RegistryState × Except ApiError ResultsOut :=
  match storeGet st.surveys surveyId with
  | none => (st, .error .notFound)
  | some survey =>
      match token with
      | some t =>
          if !t.isEmpty && t ≠ survey.adminToken then (st, .error .unauthorized)
          else (st, .ok (aggregateSurvey survey))
      | none => (st, .ok (aggregateSurvey survey))

-- ===== Claim-side (spec-worded) definitions, for refinement statements =====

/-- First-match lookup of a key's count in the `optionCounts`
accumulator (an observer used to state what the fold computes). -/
def ocGet (m : List (String × String × Nat)) (k : String) : Option Nat :=
  match m with
  | [] => none
  | e :: rest => if e.1 = k then some e.2.2 else ocGet rest k

/-- Stated from the spec's words: the sequence of all
successfully-integer-parsed stored answer values for a question, in
response order. -/
def specParsedScaleValues (responses : List Response) (qid : String) : List Int :=
  responses.filterMap (fun r => jsParseIntVal (jsGet r.data qid))

/-- Stated from the spec's words: the arithmetic mean of the values
rounded to 2 decimal places (as a number of hundredths), or `none`
when no valid values exist. -/
def specScaleMean (vals : List Int) : Option Int :=
  if vals.isEmpty then none
  else some (round ((100 : ℚ) * (((vals.sum : Int) : ℚ) / (vals.length : ℚ))))

/-- How many increments one stored answer contributes to a given
option id: a falsy or absent answer contributes none, an array answer
contributes one per element whose string form is the id, any other
truthy answer contributes one when its string form is the id. -/
def specAnswerOccurrences (answer : Option Value) (optId : String) : Nat :=
  match answer with
  | some v =>
      if v.truthy then
        match v with
        | .vArr elems => (elems.filter (fun a => jsToString a == optId)).length
        | _ => if jsToString v == optId then 1 else 0
      else 0
  | none => 0

/-- Stated from the claim's words: the number of stored responses in
whose answer the option id appears at all. -/
def specResponsesContaining (responses : List Response) (qid optId : String) : Nat :=
  (responses.filter (fun r => specAnswerOccurrences (jsGet r.data qid) optId != 0)).length

-- ===== Concrete fixtures used by witnesses and counterexamples =====

/-- A scale question with range 1..10. -/
def sampleScaleQ : Question :=
  { id := "q_scale", text := "Rate us", type := "scale", required := false,
    options := [], minValue := 1, maxValue := 10 }

/-- A single-choice question with declared options `a` and `b`. -/
def sampleChoiceQ : Question :=
  { id := "q_choice", text := "Pick one", type := "single-choice", required := false,
    options := [⟨"a", "A"⟩, ⟨"b", "B"⟩], minValue := 0, maxValue := 0 }

/-- Three stored responses: scale answers 2, 4, 6 and choice answers
a, a, b. -/
def sampleResponses : List Response :=
  [ { id := "r1", data := [("q_scale", .vStr "2"), ("q_choice", .vStr "a")], submittedAt := 1 },
    { id := "r2", data := [("q_scale", .vStr "4"), ("q_choice", .vStr "a")], submittedAt := 2 },
    { id := "r3", data := [("q_scale", .vStr "6"), ("q_choice", .vStr "b")], submittedAt := 3 } ]

/-- The sample survey holding the two questions and three responses. -/
def sampleSurvey : Survey :=
  { id := "survey_1", title := "Feedback", description := "",
    questions := [sampleScaleQ, sampleChoiceQ], responses := sampleResponses,
    createdAt := 0, adminToken := "abc", updatedAt := none }

/-- A registry state in which `sampleSurvey` is the active survey. -/
def activeState : RegistryState :=
  { surveys := [("survey_1", sampleSurvey)], nextId := 2,
    currentSurveyId := some "survey_1", currentSurveyAdminToken := some "abc" }

/-- A registry state before any survey has been created. -/
def freshState : RegistryState :=
  { surveys := [], nextId := 1, currentSurveyId := none, currentSurveyAdminToken := none }

/-- A creation-request question lacking an id. -/
def sampleQuestionInput : QuestionInput :=
  { id := none, text := "Say something", type := "text", required := true,
    options := [], minValue := 0, maxValue := 0 }

/-- A survey whose one single-choice question declares only option `a`
and whose single stored response answers with the sequence `[a, a]`. -/
def dupAnswerSurvey : Survey :=
  { id := "survey_1", title := "Dup", description := "",
    questions := [{ id := "q0", text := "Pick one", type := "single-choice",
                    required := false, options := [⟨"a", "A"⟩],
                    minValue := 0, maxValue := 0 }],
    responses := [{ id := "r1", data := [("q0", .vArr [.vStr "a", .vStr "a"])],
                    submittedAt := 1 }],
    createdAt := 0, adminToken := "abc", updatedAt := none }

/-- A required single-choice question declaring only option `a`. -/
def requiredChoiceQ : Question :=
  { id := "q0", text := "Pick one", type := "single-choice", required := true,
    options := [⟨"a", "A"⟩], minValue := 0, maxValue := 0 }

/-- A survey whose one single-choice question is required. -/
def requiredChoiceSurvey : Survey :=
  { id := "survey_1", title := "Req", description := "",
    questions := [requiredChoiceQ],
    responses := [], createdAt := 0, adminToken := "abc", updatedAt := none }

/-- A required scale question whose range contains 0. -/
def zeroScaleQ : Question :=
  { id := "q_scale0", text := "Rate", type := "scale", required := true,
    options := [], minValue := -5, maxValue := 5 }

/-- A survey holding only `zeroScaleQ`. -/
def zeroScaleSurvey : Survey :=
  { id := "survey_9", title := "Zero", description := "", questions := [zeroScaleQ],
    responses := [], createdAt := 0, adminToken := "abc", updatedAt := none }

/-- A registry state in which `zeroScaleSurvey` is stored. -/
def zeroScaleState : RegistryState :=
  { surveys := [("survey_9", zeroScaleSurvey)], nextId := 2,
    currentSurveyId := some "survey_9", currentSurveyAdminToken := some "abc" }

-- ===== Helper lemmas =====

theorem validateResponse_eq_flatten (survey : Survey) (response : List (String × Value)) :
    validateResponse survey response = (survey.questions.map (validateQuestion response)).flatten := by
  have h : ∀ (qs : List Question) (acc : List String),
      qs.foldl (fun errors q => errors ++ validateQuestion response q) acc =
        acc ++ (qs.map (validateQuestion response)).flatten := by
    intro qs
    induction qs with
    | nil => intro acc; simp
    | cons q rest ih => intro acc; simp [ih, List.append_assoc]
  simpa [validateResponse] using h survey.questions []

theorem storeGet_storeSet_self (m : List (String × Survey)) (k : String) (s : Survey) :
    storeGet (storeSet m k s) k = some s := by
  induction m with
  | nil => simp [storeSet, storeGet]
  | cons e rest ih =>
      obtain ⟨ek, es⟩ := e
      by_cases h : ek = k
      · simp [storeSet, h, storeGet]
      · simp [storeSet, h, storeGet, ih]

theorem assignQuestionIdsFrom_getElem? (qs : List QuestionInput) :
    ∀ (start i : Nat),
      (assignQuestionIdsFrom start qs)[i]? = (qs[i]?).map (assignQuestionId (start + i)) := by
  induction qs with
  | nil => intro start i; simp [assignQuestionIdsFrom]
  | cons q rest ih =>
      intro start i
      cases i with
      | zero => simp [assignQuestionIdsFrom]
      | succ j =>
          have h2 : start + 1 + j = start + (j + 1) := by omega
          simp only [assignQuestionIdsFrom, List.getElem?_cons_succ, ih (start + 1) j, h2]

theorem getResults_fst (st : RegistryState) (sid : String) (token : Option String) :
    (getResults st sid token).1 = st := by
  unfold getResults
  rcases storeGet st.surveys sid with _ | survey
  · rfl
  · rcases token with _ | t
    · rfl
    · dsimp only
      split <;> rfl

-- ===== C8: getResults idempotence =====

/-- C8: two consecutive `getResults` calls on the same survey with no
intervening mutation (the second call runs on the state the first one
returned) yield identical output; the first call also leaves the
registry state unchanged. -/
theorem claim_c8 (st : RegistryState) (sid : String) (token : Option String) :
    (getResults st sid token).1 = st ∧
    (getResults (getResults st sid token).1 sid token).2 = (getResults st sid token).2 := by
  refine ⟨getResults_fst st sid token, ?_⟩
  rw [getResults_fst st sid token]

-- ===== C7: getResults authorization =====

/-- C7 (amended): `getResults` fails with `Unauthorized` iff the
supplied token is non-empty and differs from the survey's admin token
(an empty token behaves like no token at all); with no token it
succeeds with the full aggregate result; an unknown survey id gives
`NotFound`. -/
theorem claim_c7_amended (st : RegistryState) (sid : String) (token : Option String) :
    (storeGet st.surveys sid = none → getResults st sid token = (st, .error .notFound)) ∧
    (∀ survey, storeGet st.surveys sid = some survey →
      (((getResults st sid token).2 = .error .unauthorized) ↔
        ∃ t, token = some t ∧ t ≠ "" ∧ t ≠ survey.adminToken) ∧
      (token = none → getResults st sid token = (st, .ok (aggregateSurvey survey)))) := by
  constructor
  · intro h
    unfold getResults
    rw [h]
  · intro survey h
    constructor
    · unfold getResults
      rw [h]
      rcases token with _ | t
      · simp
      · dsimp only
        by_cases he : t = ""
        · subst he
          simp [show ("" : String).isEmpty = true from rfl]
        · by_cases hm : t = survey.adminToken
          · subst hm
            simp [he]
          · have hne : ¬t.isEmpty := by simpa [String.isEmpty_iff] using he
            simp [hne, hm, he]
    · intro htok
      subst htok
      unfold getResults
      rw [h]

/-- C7 counterexample: a supplied empty-string token that differs from
the admin token does not yield `Unauthorized` — the call succeeds, so
"fails iff a token is supplied and it differs" is false as stated. -/
theorem claim_c7_counterexample :
    (getResults activeState "survey_1" (some "")).2 = .ok (aggregateSurvey sampleSurvey) ∧
    sampleSurvey.adminToken = "abc" ∧ ("" : String) ≠ "abc" :=
  ⟨rfl, rfl, by decide⟩

/-- C7 witness: instantiates the amended theorem on the sample state,
for a matching token, a wrong non-empty token, and no token. -/
theorem claim_c7_witness :
    (getResults activeState "survey_1" (some "wrong")).2 = .error .unauthorized ∧
    ¬(getResults activeState "survey_1" (some "abc")).2 = .error .unauthorized ∧
    getResults activeState "survey_1" none = (activeState, .ok (aggregateSurvey sampleSurvey)) := by
  have h := (claim_c7_amended activeState "survey_1" (some "wrong")).2 sampleSurvey rfl
  have h2 := (claim_c7_amended activeState "survey_1" (some "abc")).2 sampleSurvey rfl
  have h3 := (claim_c7_amended activeState "survey_1" none).2 sampleSurvey rfl
  refine ⟨h.1.mpr ⟨"wrong", rfl, by decide, by decide⟩, ?_, h3.2 rfl⟩
  intro hbad
  obtain ⟨t, ht, hne, hmis⟩ := h2.1.mp hbad
  cases ht
  exact hmis rfl

-- ===== C5: createSurvey =====

theorem isEmpty_false_of_ne (s : String) (h : s ≠ "") : s.isEmpty = false := by
  cases hb : s.isEmpty with
  | false => rfl
  | true => exact absurd ((String.isEmpty_iff s).mp hb) h

theorem listIsEmpty_false_of_ne {α : Type} (l : List α) (h : l ≠ []) : l.isEmpty = false := by
  cases l with
  | nil => exact absurd rfl h
  | cons a l => rfl

theorem jsTruthyOptStr_some (s : String) (h : s ≠ "") : jsTruthyOptStr (some s) = true := by
  simp [jsTruthyOptStr, isEmpty_false_of_ne s h]

/-- C5: while a survey is active, `createSurvey` fails with
`AlreadyActive`, leaves the state unchanged and echoes the active
survey's id; on an inactive registry with a title and non-empty
questions it succeeds and gives every id-less question the id
`"q_" + index`. -/
theorem claim_c5 (st : RegistryState) (title description : Option String)
    (questions : Option (List QuestionInput)) (now : Nat) (tok : String) :
    (∀ sid, st.currentSurveyId = some sid → sid ≠ "" →
      createSurvey st title description questions now tok = (st, .error (.alreadyActive sid))) ∧
    (st.currentSurveyId = none →
      ∀ t qs, title = some t → t ≠ "" → questions = some qs → qs ≠ [] →
        ∃ (st' : RegistryState) (survey : Survey),
          createSurvey st title description questions now tok = (st', .ok survey) ∧
          ∀ (i : Nat) (q : QuestionInput), qs[i]? = some q → q.id = none →
            ∃ q', survey.questions[i]? = some q' ∧ q'.id = "q_" ++ toString i) := by
  constructor
  · intro sid hsid hne
    unfold createSurvey
    rw [hsid, jsTruthyOptStr_some sid hne]
    simp
  · intro hnone t qs ht htne hqs hqsne
    subst ht
    subst hqs
    unfold createSurvey
    rw [hnone]
    rw [if_neg (by simp [jsTruthyOptStr])]
    simp only [createSurveyBody]
    rw [isEmpty_false_of_ne t htne, listIsEmpty_false_of_ne qs hqsne]
    refine ⟨_, _, rfl, ?_⟩
    intro i q hq hid
    unfold assignQuestionIds
    rw [assignQuestionIdsFrom_getElem?, hq]
    refine ⟨_, rfl, ?_⟩
    unfold assignQuestionId
    rw [hid]
    simp

/-- C5 witness: the guarded creation on the active sample state and a
successful creation on the fresh state. -/
theorem claim_c5_witness :
    createSurvey activeState (some "T2") none (some [sampleQuestionInput]) 5 "tok2" =
      (activeState, .error (.alreadyActive "survey_1")) ∧
    (∃ (st' : RegistryState) (survey : Survey),
      createSurvey freshState (some "T2") none (some [sampleQuestionInput]) 5 "tok2" =
        (st', .ok survey) ∧
      ∀ (i : Nat) (q : QuestionInput), [sampleQuestionInput][i]? = some q → q.id = none →
        ∃ q', survey.questions[i]? = some q' ∧ q'.id = "q_" ++ toString i) := by
  constructor
  · exact (claim_c5 activeState (some "T2") none (some [sampleQuestionInput]) 5 "tok2").1
      "survey_1" rfl (by decide)
  · exact (claim_c5 freshState (some "T2") none (some [sampleQuestionInput]) 5 "tok2").2
      rfl "T2" [sampleQuestionInput] rfl (by decide) rfl (by decide)

-- ===== C6: updateSurvey =====

/-- C6: `updateSurvey` gives `NotFound` on an unknown id; with a
non-matching token it gives `Unauthorized` and changes nothing; with
the matching token it replaces title, description and questions
(re-assigning ids), stamps `updatedAt`, and leaves the survey's id,
admin token, responses and creation time unchanged. -/
theorem claim_c6 (st : RegistryState) (sid : String) (token title description : Option String)
    (questions : Option (List QuestionInput)) (now : Nat) :
    (storeGet st.surveys sid = none →
      updateSurvey st sid token title description questions now = (st, .error .notFound)) ∧
    (∀ survey, storeGet st.surveys sid = some survey → token ≠ some survey.adminToken →
      updateSurvey st sid token title description questions now = (st, .error .unauthorized)) ∧
    (∀ survey t qs, storeGet st.surveys sid = some survey → token = some survey.adminToken →
      title = some t → t ≠ "" → questions = some qs → qs ≠ [] →
      ∃ (st' : RegistryState) (survey' : Survey),
        updateSurvey st sid token title description questions now = (st', .ok survey') ∧
        survey'.title = t ∧
        survey'.description = description.getD "" ∧
        survey'.questions = assignQuestionIds qs ∧
        survey'.updatedAt = some now ∧
        survey'.id = survey.id ∧
        survey'.adminToken = survey.adminToken ∧
        survey'.responses = survey.responses ∧
        survey'.createdAt = survey.createdAt ∧
        storeGet st'.surveys sid = some survey') := by
  refine ⟨?_, ?_, ?_⟩
  · intro h
    unfold updateSurvey
    rw [h]
  · intro survey h hne
    unfold updateSurvey
    rw [h]
    dsimp only
    rw [if_pos hne]
  · intro survey t qs h htok ht htne hqs hqsne
    subst htok
    subst ht
    subst hqs
    unfold updateSurvey
    rw [h]
    dsimp only
    rw [if_neg (by simp)]
    rw [isEmpty_false_of_ne t htne, listIsEmpty_false_of_ne qs hqsne]
    exact ⟨_, _, rfl, rfl, rfl, rfl, rfl, rfl, rfl, rfl, rfl,
      storeGet_storeSet_self st.surveys sid _⟩

/-- C6 witness: the three cases instantiated on the sample state. -/
theorem claim_c6_witness :
    updateSurvey activeState "unknown" (some "abc") (some "New") (some "d")
      (some [sampleQuestionInput]) 7 = (activeState, .error .notFound) ∧
    updateSurvey activeState "survey_1" (some "bad") (some "New") (some "d")
      (some [sampleQuestionInput]) 7 = (activeState, .error .unauthorized) ∧
    (∃ (st' : RegistryState) (survey' : Survey),
      updateSurvey activeState "survey_1" (some "abc") (some "New") (some "d")
        (some [sampleQuestionInput]) 7 = (st', .ok survey') ∧
      survey'.title = "New" ∧
      survey'.description = (some "d").getD "" ∧
      survey'.questions = assignQuestionIds [sampleQuestionInput] ∧
      survey'.updatedAt = some 7 ∧
      survey'.id = sampleSurvey.id ∧
      survey'.adminToken = sampleSurvey.adminToken ∧
      survey'.responses = sampleSurvey.responses ∧
      survey'.createdAt = sampleSurvey.createdAt ∧
      storeGet st'.surveys "survey_1" = some survey') := by
  refine ⟨?_, ?_, ?_⟩
  · exact (claim_c6 activeState "unknown" (some "abc") (some "New") (some "d")
      (some [sampleQuestionInput]) 7).1 rfl
  · exact (claim_c6 activeState "survey_1" (some "bad") (some "New") (some "d")
      (some [sampleQuestionInput]) 7).2.1 sampleSurvey rfl (by decide)
  · exact (claim_c6 activeState "survey_1" (some "abc") (some "New") (some "d")
      (some [sampleQuestionInput]) 7).2.2 sampleSurvey "New" [sampleQuestionInput]
      rfl rfl rfl (by decide) rfl (by decide)

-- ===== C2: required-question presence test =====

/-- C2 (amended): for a required question whose answer is absent or
JS-falsy (undefined, null, the empty string, or the number 0) the
validator yields exactly the one violation `"<text>" is required` —
which mentions the question's text — and no type-specific check runs;
an empty sequence, however, counts as present. -/
theorem claim_c2_amended (q : Question) (response : List (String × Value)) :
    q.required = true →
    answerTruthy (jsGet response q.id) = false →
    validateQuestion response q = [requiredMessage q] ∧
    ∃ pre post, requiredMessage q = pre ++ q.text ++ post := by
  intro hreq hfalsy
  constructor
  · unfold validateQuestion validateQuestionAnswer
    rw [hfalsy, hreq]
    simp
  · exact ⟨"Question \"", "\" is required", rfl⟩

/-- C2 counterexample: a required question answered with the empty
sequence produces zero violations, not the single required-violation
the claim demands — `[]` is truthy in JS, so the presence test passes
(and the choice check then accepts the empty sequence). -/
theorem claim_c2_counterexample :
    (∃ q, requiredChoiceSurvey.questions = [q] ∧ q.required = true) ∧
    validateResponse requiredChoiceSurvey [("q0", Value.vArr [])] = [] :=
  ⟨⟨_, rfl, rfl⟩, rfl⟩

/-- C2 witness: the amended theorem applied to a concrete required
question with an absent answer. -/
theorem claim_c2_witness :
    sampleQuestionInput.required = true ∧
    (let q := assignQuestionId 0 sampleQuestionInput
     validateQuestion [] q = [requiredMessage q] ∧
     ∃ pre post, requiredMessage q = pre ++ q.text ++ post) :=
  ⟨rfl, claim_c2_amended (assignQuestionId 0 sampleQuestionInput) [] rfl rfl⟩

-- ===== C3: scale range validation =====

/-- C3: for a scale question with a consistent range and a present
(truthy) answer, the validator accepts exactly when the parsed integer
lies in `[minValue, maxValue]`; in particular it accepts parses equal
to either bound, rejects `minValue - 1`, `maxValue + 1`, and anything
that does not parse as an integer. -/
theorem claim_c3 (q : Question) (response : List (String × Value)) (v : Value) :
    q.type = "scale" → q.minValue ≤ q.maxValue →
    jsGet response q.id = some v → v.truthy = true →
    ((validateQuestion response q = []) ↔
      ∃ n, jsParseIntVal (some v) = some n ∧ q.minValue ≤ n ∧ n ≤ q.maxValue) ∧
    (jsParseIntVal (some v) = some q.minValue → validateQuestion response q = []) ∧
    (jsParseIntVal (some v) = some q.maxValue → validateQuestion response q = []) ∧
    (jsParseIntVal (some v) = some (q.minValue - 1) →
      validateQuestion response q = [scaleRangeMessage q]) ∧
    (jsParseIntVal (some v) = some (q.maxValue + 1) →
      validateQuestion response q = [scaleRangeMessage q]) ∧
    (jsParseIntVal (some v) = none → validateQuestion response q = [scaleRangeMessage q]) := by
  intro htype hminmax hget htruthy
  have hval : validateQuestion response q =
      match jsParseIntVal (some v) with
      | none => [scaleRangeMessage q]
      | some num =>
          if num < q.minValue ∨ num > q.maxValue then [scaleRangeMessage q] else [] := by
    unfold validateQuestion validateQuestionAnswer
    rw [hget, htype]
    have htr : answerTruthy (some v) = true := htruthy
    rw [htr]
    simp
  rw [hval]
  cases hp : jsParseIntVal (some v) with
  | none => simp
  | some n =>
      dsimp only
      by_cases hin : n < q.minValue ∨ n > q.maxValue
      · rw [if_pos hin]
        refine ⟨?_, ?_, ?_, ?_, ?_, ?_⟩
        · constructor
          · intro habs
            exact absurd habs (by simp [scaleRangeMessage])
          · rintro ⟨m, hm, h1, h2⟩
            cases hm
            omega
        · intro hn
          cases hn
          omega
        · intro hn
          cases hn
          omega
        · intro _
          rfl
        · intro _
          rfl
        · intro h
          cases h
      · rw [if_neg hin]
        push_neg at hin
        refine ⟨?_, ?_, ?_, ?_, ?_, ?_⟩
        · exact ⟨fun _ => ⟨n, rfl, hin.1, hin.2⟩, fun _ => rfl⟩
        · intro _
          rfl
        · intro _
          rfl
        · intro hn
          cases hn
          omega
        · intro hn
          cases hn
          omega
        · intro h
          cases h

/-- C3 witness: the sample 1..10 scale question accepting the answer
string `"3"`. -/
theorem claim_c3_witness :
    sampleScaleQ.type = "scale" ∧ sampleScaleQ.minValue ≤ sampleScaleQ.maxValue ∧
    jsGet [("q_scale", Value.vStr "3")] sampleScaleQ.id = some (Value.vStr "3") ∧
    (Value.vStr "3").truthy = true ∧
    validateQuestion [("q_scale", Value.vStr "3")] sampleScaleQ = [] := by
  have h := claim_c3 sampleScaleQ [("q_scale", Value.vStr "3")] (Value.vStr "3")
    rfl (by decide) rfl rfl
  exact ⟨rfl, by decide, rfl, rfl, h.1.mpr ⟨3, by decide, by decide, by decide⟩⟩

-- ===== C4: choice-option validation =====

/-- C4: for a choice question (either cardinality) with a present
(truthy) answer, a sequence answer is accepted iff every element is a
declared option id, and a scalar answer is accepted iff it is a
declared option id — so an undeclared id is always rejected and a
single-choice question accepts sequences of valid ids. -/
theorem claim_c4 (q : Question) (response : List (String × Value)) (v : Value) :
    (q.type = "single-choice" ∨ q.type = "multiple-choice") →
    jsGet response q.id = some v → v.truthy = true →
    (∀ elems, v = Value.vArr elems →
      (validateQuestion response q = [] ↔
        ∀ a ∈ elems, valueIsOptionId (q.options.map (fun opt => opt.id)) a = true)) ∧
    ((∀ elems, v ≠ Value.vArr elems) →
      (validateQuestion response q = [] ↔
        valueIsOptionId (q.options.map (fun opt => opt.id)) v = true)) := by
  intro htype hget htruthy
  constructor
  · intro elems hv
    subst hv
    have hred : validateQuestion response q =
        if !(elems.all (fun a => valueIsOptionId (q.options.map (fun opt => opt.id)) a)) then
          [invalidOptionMessage q]
        else [] := by
      unfold validateQuestion validateQuestionAnswer
      rw [hget]
      rcases htype with h | h <;> rw [h] <;> cases hrq : q.required <;> rfl
    rw [hred]
    by_cases hall : elems.all (fun a => valueIsOptionId (q.options.map (fun opt => opt.id)) a) = true
    · refine iff_of_true ?_ (List.all_eq_true.mp hall)
      rw [hall]
      rfl
    · have hf : elems.all (fun a => valueIsOptionId (q.options.map (fun opt => opt.id)) a) = false :=
        Bool.eq_false_iff.mpr hall
      refine iff_of_false ?_ (fun hc => hall (List.all_eq_true.mpr hc))
      rw [hf]
      simp
  · intro hnotarr
    cases v with
    | vArr elems => exact absurd rfl (hnotarr elems)
    | vNull => exact absurd htruthy (by simp [Value.truthy])
    | vNum n =>
        have hred : validateQuestion response q = [invalidOptionMessage q] := by
          unfold validateQuestion validateQuestionAnswer
          rw [hget]
          rcases htype with h | h <;> rw [h] <;>
            simp [answerTruthy, htruthy, valueIsOptionId]
        rw [hred]
        refine iff_of_false (by simp) (by simp [valueIsOptionId])
    | vStr s =>
        have hred : validateQuestion response q =
            if !(valueIsOptionId (q.options.map (fun opt => opt.id)) (Value.vStr s)) then
              [invalidOptionMessage q]
            else [] := by
          unfold validateQuestion validateQuestionAnswer
          rw [hget]
          have htr : answerTruthy (some (Value.vStr s)) = true := htruthy
          rcases htype with h | h <;> rw [h, htr] <;>
            simp only [Bool.not_true, Bool.and_false, Bool.false_eq_true, if_false, if_true]
        rw [hred]
        by_cases hin : valueIsOptionId (q.options.map (fun opt => opt.id)) (Value.vStr s) = true
        · refine iff_of_true ?_ hin
          rw [hin]
          rfl
        · have hf : valueIsOptionId (q.options.map (fun opt => opt.id)) (Value.vStr s) = false :=
            Bool.eq_false_iff.mpr hin
          refine iff_of_false ?_ hin
          rw [hf]
          simp

/-- C4 witness: the sample single-choice question accepts the sequence
`[a, b]` of valid option ids and rejects the undeclared scalar `z`. -/
theorem claim_c4_witness :
    (sampleChoiceQ.type = "single-choice" ∨ sampleChoiceQ.type = "multiple-choice") ∧
    jsGet [("q_choice", Value.vArr [Value.vStr "a", Value.vStr "b"])] sampleChoiceQ.id =
      some (Value.vArr [Value.vStr "a", Value.vStr "b"]) ∧
    (Value.vArr [Value.vStr "a", Value.vStr "b"]).truthy = true ∧
    validateQuestion [("q_choice", Value.vArr [Value.vStr "a", Value.vStr "b"])] sampleChoiceQ = [] ∧
    validateQuestion [("q_choice", Value.vStr "z")] sampleChoiceQ ≠ [] := by
  have h1 := claim_c4 sampleChoiceQ [("q_choice", Value.vArr [Value.vStr "a", Value.vStr "b"])]
    (Value.vArr [Value.vStr "a", Value.vStr "b"]) (Or.inl rfl) rfl rfl
  have h2 := claim_c4 sampleChoiceQ [("q_choice", Value.vStr "z")] (Value.vStr "z")
    (Or.inl rfl) rfl rfl
  refine ⟨Or.inl rfl, rfl, rfl, ?_, ?_⟩
  · exact (h1.1 [Value.vStr "a", Value.vStr "b"] rfl).mpr (by decide)
  · intro hc
    have hz := (h2.2 (fun elems h => Value.noConfusion h)).mp hc
    exact absurd hz (by decide)

-- ===== C9: falsy presence test =====

/-- C9: the presence test is JS falsiness, so a required scale question
whose range includes 0 rejects the numeric answer 0 with the required
violation (and `submitResponse` rejects the whole response), while the
empty sequence is truthy and treated as present. -/
theorem claim_c9 :
    (∀ (q : Question) (st : RegistryState) (sid fid : String) (now : Nat) (survey : Survey),
      q.required = true → q.type = "scale" → q.minValue ≤ 0 → 0 ≤ q.maxValue →
      validateQuestion [(q.id, Value.vNum 0)] q = [requiredMessage q] ∧
      (storeGet st.surveys sid = some survey → survey.questions = [q] →
        (submitResponse st sid [(q.id, Value.vNum 0)] fid now).2 =
          .error (.validationFailed [requiredMessage q]))) ∧
    Value.truthy (Value.vArr []) = true ∧
    (∀ q : Question, q.required = true → q.type = "single-choice" →
      validateQuestion [(q.id, Value.vArr [])] q = []) := by
  refine ⟨?_, rfl, ?_⟩
  · intro q st sid fid now survey hreq htype hmin hmax
    have hg : jsGet [(q.id, Value.vNum 0)] q.id = some (Value.vNum 0) := by
      simp [jsGet]
    have hv : validateQuestion [(q.id, Value.vNum 0)] q = [requiredMessage q] := by
      unfold validateQuestion validateQuestionAnswer
      rw [hg, hreq]
      rfl
    refine ⟨hv, ?_⟩
    intro hst hqs
    unfold submitResponse
    rw [hst]
    dsimp only
    have hvr : validateResponse survey [(q.id, Value.vNum 0)] = [requiredMessage q] := by
      rw [validateResponse_eq_flatten, hqs]
      simp [hv]
    rw [hvr]
    rfl
  · intro q hreq htype
    have hg : jsGet [(q.id, Value.vArr [])] q.id = some (Value.vArr []) := by
      simp [jsGet]
    unfold validateQuestion validateQuestionAnswer
    rw [hg, hreq, htype]
    rfl

/-- C9 witness: the required scale question with range -5..5 rejects
the numeric answer 0, and the required choice question treats `[]` as
present. -/
theorem claim_c9_witness :
    zeroScaleQ.required = true ∧ zeroScaleQ.type = "scale" ∧
    zeroScaleQ.minValue ≤ 0 ∧ 0 ≤ zeroScaleQ.maxValue ∧
    validateQuestion [("q_scale0", Value.vNum 0)] zeroScaleQ = [requiredMessage zeroScaleQ] ∧
    (submitResponse zeroScaleState "survey_9" [("q_scale0", Value.vNum 0)] "r9" 9).2 =
      .error (.validationFailed [requiredMessage zeroScaleQ]) ∧
    validateQuestion [("q0", Value.vArr [])] requiredChoiceQ = [] := by
  have h := claim_c9.1 zeroScaleQ zeroScaleState "survey_9" "r9" 9 zeroScaleSurvey
    rfl rfl (by decide) (by decide)
  exact ⟨rfl, rfl, by decide, by decide, h.1, h.2 rfl rfl,
    claim_c9.2.2 requiredChoiceQ rfl rfl⟩

-- ===== C10: raw answer map stored verbatim =====

/-- C10: validation ignores answer-map keys that match no question id
(adding such an entry never changes the outcome), and an accepted
submission stores the submitted raw answer map verbatim — unknown keys
included — in the appended response. -/
theorem claim_c10 :
    (∀ (survey : Survey) (k : String) (v : Value) (body : List (String × Value)),
      (∀ q ∈ survey.questions, q.id ≠ k) →
      validateResponse survey ((k, v) :: body) = validateResponse survey body) ∧
    (∀ (st : RegistryState) (sid : String) (body : List (String × Value)) (fid : String)
        (now : Nat) (survey : Survey),
      storeGet st.surveys sid = some survey →
      validateResponse survey body = [] →
      (submitResponse st sid body fid now).2 = .ok fid ∧
      storeGet (submitResponse st sid body fid now).1.surveys sid =
        some { survey with responses := survey.responses ++ [⟨fid, body, now⟩] }) := by
  constructor
  · intro survey k v body hk
    rw [validateResponse_eq_flatten, validateResponse_eq_flatten]
    congr 1
    apply List.map_congr_left
    intro q hq
    unfold validateQuestion
    have hg : jsGet ((k, v) :: body) q.id = jsGet body q.id := by
      show (if k = q.id then some v else jsGet body q.id) = jsGet body q.id
      rw [if_neg (Ne.symm (hk q hq))]
    rw [hg]
  · intro st sid body fid now survey hst hval
    unfold submitResponse
    rw [hst]
    dsimp only
    rw [hval]
    exact ⟨rfl, storeGet_storeSet_self _ _ _⟩

/-- C10 witness: a response with the unknown key `extra` validates the
same as without it, is accepted, and is stored verbatim. -/
theorem claim_c10_witness :
    (∀ q ∈ sampleSurvey.questions, q.id ≠ "extra") ∧
    validateResponse sampleSurvey (("extra", Value.vStr "x") :: [("q_scale", Value.vStr "3")]) =
      validateResponse sampleSurvey [("q_scale", Value.vStr "3")] ∧
    validateResponse sampleSurvey [("extra", Value.vStr "x"), ("q_scale", Value.vStr "3")] = [] ∧
    (submitResponse activeState "survey_1"
      [("extra", Value.vStr "x"), ("q_scale", Value.vStr "3")] "r4" 4).2 = .ok "r4" ∧
    storeGet (submitResponse activeState "survey_1"
      [("extra", Value.vStr "x"), ("q_scale", Value.vStr "3")] "r4" 4).1.surveys "survey_1" =
      some { sampleSurvey with responses := sampleSurvey.responses ++
        [⟨"r4", [("extra", Value.vStr "x"), ("q_scale", Value.vStr "3")], 4⟩] } := by
  have h1 := claim_c10.1 sampleSurvey "extra" (Value.vStr "x")
    [("q_scale", Value.vStr "3")] (by decide)
  have h2 := claim_c10.2 activeState "survey_1"
    [("extra", Value.vStr "x"), ("q_scale", Value.vStr "3")] "r4" 4 sampleSurvey rfl rfl
  exact ⟨by decide, h1, rfl, h2.1, h2.2⟩


-- ===== C1: aggregation lemmas and claim =====

theorem ocGet_ocSet_self (m : List (String × String × Nat)) (k lbl : String) :
    ocGet (ocSet m k lbl) k = some 0 := by
  induction m with
  | nil => simp [ocSet, ocGet]
  | cons e rest ih =>
      by_cases h : e.1 = k
      · simp [ocSet, h, ocGet]
      · simp [ocSet, h, ocGet, ih]

theorem ocGet_ocSet_other (m : List (String × String × Nat)) (k lbl k' : String)
    (h : k ≠ k') : ocGet (ocSet m k lbl) k' = ocGet m k' := by
  induction m with
  | nil => simp [ocSet, ocGet, h]
  | cons e rest ih =>
      by_cases he : e.1 = k
      · simp [ocSet, ocGet, he, h]
      · simp [ocSet, ocGet, he, ih]

theorem ocGet_init_preserved (opts : List ChoiceOption) :
    ∀ (m : List (String × String × Nat)) (k : String), ocGet m k = some 0 →
      ocGet (opts.foldl (fun m opt => ocSet m opt.id opt.label) m) k = some 0 := by
  induction opts with
  | nil => intro m k h; simpa using h
  | cons o rest ih =>
      intro m k h
      simp only [List.foldl_cons]
      apply ih
      by_cases ho : o.id = k
      · subst ho
        exact ocGet_ocSet_self m o.id o.label
      · rw [ocGet_ocSet_other m o.id o.label k ho]
        exact h

theorem ocGet_initFold (opts : List ChoiceOption) :
    ∀ (m : List (String × String × Nat)) (o : ChoiceOption), o ∈ opts →
      ocGet (opts.foldl (fun m opt => ocSet m opt.id opt.label) m) o.id = some 0 := by
  induction opts with
  | nil => intro m o ho; cases ho
  | cons o' rest ih =>
      intro m o ho
      simp only [List.foldl_cons]
      rcases List.mem_cons.mp ho with he | hr
      · subst he
        exact ocGet_init_preserved rest _ _ (ocGet_ocSet_self m o.id o.label)
      · exact ih _ o hr

theorem ocGet_incKey_self (m : List (String × String × Nat)) (k : String) :
    ocGet (incKey m k) k = (ocGet m k).map (· + 1) := by
  induction m with
  | nil => simp [incKey, ocGet]
  | cons e rest ih =>
      by_cases h : e.1 = k
      · simp [incKey, ocGet, h]
      · simp [incKey, ocGet, h, ih]

theorem ocGet_incKey_other (m : List (String × String × Nat)) (key k : String)
    (h : key ≠ k) : ocGet (incKey m key) k = ocGet m k := by
  induction m with
  | nil => simp [incKey, ocGet]
  | cons e rest ih =>
      by_cases he : e.1 = key
      · simp [incKey, ocGet, he, h, ih]
      · simp [incKey, ocGet, he, ih]

theorem ocGet_incKey_count (m : List (String × String × Nat)) (key k : String) :
    ocGet (incKey m key) k = (ocGet m k).map (· + if key == k then 1 else 0) := by
  by_cases hk : key = k
  · subst hk
    rw [ocGet_incKey_self]
    simp
  · rw [ocGet_incKey_other m key k hk]
    have hb : (key == k) = false := beq_eq_false_iff_ne.mpr hk
    rw [hb]
    cases h : ocGet m k <;> simp

theorem ocGet_incKey_fold (elems : List Value) :
    ∀ (m : List (String × String × Nat)) (k : String),
      ocGet (elems.foldl (fun m a => incKey m (jsToString a)) m) k =
        (ocGet m k).map (· + (elems.filter (fun a => jsToString a == k)).length) := by
  induction elems with
  | nil => intro m k; cases h : ocGet m k <;> simp [h]
  | cons a rest ih =>
      intro m k
      simp only [List.foldl_cons, List.filter_cons]
      rw [ih, ocGet_incKey_count]
      by_cases ha : jsToString a = k
      · have hb : (jsToString a == k) = true := beq_iff_eq.mpr ha
        rw [hb]
        cases h : ocGet m k with
        | none => simp
        | some c =>
            simp
            omega
      · have hb : (jsToString a == k) = false := beq_eq_false_iff_ne.mpr ha
        rw [hb]
        cases h : ocGet m k <;> simp

theorem ocGet_applyChoiceAnswer (m : List (String × String × Nat))
    (ans : Option Value) (k : String) :
    ocGet (applyChoiceAnswer m ans) k =
      (ocGet m k).map (· + specAnswerOccurrences ans k) := by
  rcases ans with _ | v
  · cases h : ocGet m k <;> simp [applyChoiceAnswer, specAnswerOccurrences, h]
  · unfold applyChoiceAnswer specAnswerOccurrences
    dsimp only
    by_cases htr : v.truthy = true
    · rw [if_pos htr, if_pos htr]
      rcases v with s | n | elems | _
      · exact ocGet_incKey_count m (jsToString (Value.vStr s)) k
      · exact ocGet_incKey_count m (jsToString (Value.vNum n)) k
      · exact ocGet_incKey_fold elems m k
      · exact ocGet_incKey_count m (jsToString Value.vNull) k
    · rw [if_neg htr, if_neg htr]
      cases h : ocGet m k <;> simp [h]

theorem ocGet_responsesFold (responses : List Response) (qid : String) :
    ∀ (m : List (String × String × Nat)) (k : String),
      ocGet (responses.foldl (fun m r => applyChoiceAnswer m (jsGet r.data qid)) m) k =
        (ocGet m k).map
          (· + (responses.map (fun r => specAnswerOccurrences (jsGet r.data qid) k)).sum) := by
  induction responses with
  | nil => intro m k; cases h : ocGet m k <;> simp [h]
  | cons r rest ih =>
      intro m k
      simp only [List.foldl_cons, List.map_cons, List.sum_cons]
      rw [ih, ocGet_applyChoiceAnswer]
      cases h : ocGet m k with
      | none => simp
      | some c =>
          simp
          omega

theorem ocGet_eq_some_mem (m : List (String × String × Nat)) (k : String) (n : Nat) :
    ocGet m k = some n → ∃ lbl, (k, lbl, n) ∈ m := by
  induction m with
  | nil => intro h; cases h
  | cons e rest ih =>
      obtain ⟨k0, lbl0, c0⟩ := e
      intro h
      by_cases he : k0 = k
      · subst he
        simp [ocGet] at h
        subst h
        exact ⟨lbl0, List.mem_cons_self _ _⟩
      · simp only [ocGet, if_neg he] at h
        obtain ⟨lbl, hmem⟩ := ih h
        exact ⟨lbl, List.mem_cons_of_mem _ hmem⟩

theorem choiceResults_spec (responses : List Response) (qid : String)
    (opts : List ChoiceOption) (o : ChoiceOption) (h : o ∈ opts) :
    ∃ e ∈ choiceResults responses qid opts, e.id = o.id ∧
      e.count = (responses.map (fun r => specAnswerOccurrences (jsGet r.data qid) o.id)).sum := by
  have h0 : ocGet (initOptionCounts opts) o.id = some 0 := ocGet_initFold opts [] o h
  have h1 := ocGet_responsesFold responses qid (initOptionCounts opts) o.id
  rw [h0] at h1
  simp at h1
  obtain ⟨lbl, hmem⟩ := ocGet_eq_some_mem _ _ _ h1
  refine ⟨{ id := o.id, label := lbl,
            count := (responses.map (fun r => specAnswerOccurrences (jsGet r.data qid) o.id)).sum },
    ?_, rfl, rfl⟩
  unfold choiceResults
  exact List.mem_map_of_mem _ hmem

theorem scaleVals_eq_spec (responses : List Response) (qid : String) :
    scaleVals responses qid = specParsedScaleValues responses qid := by
  unfold scaleVals specParsedScaleValues
  rw [List.filterMap_map]
  rfl

theorem scaleMean_eq_spec (vals : List Int) :
    (if vals.length > 0 then some (toFixed2 (ratAvg vals)) else none) = specScaleMean vals := by
  unfold toFixed2 ratAvg specScaleMean
  rcases vals with _ | ⟨a, rest⟩
  · simp
  · simp

/-- C1 (amended): `getResults` aggregates per question in the survey's
question order; a scale question reports the sequence of all
successfully-integer-parsed stored answer values with their mean
rounded to 2 decimals (`none` if no valid values); a choice question
reports, for every declared option, the number of occurrences of that
option id across the stored answers (each truthy answer contributing
its elements, a scalar as a singleton, elements matched by their string
form) — occurrences, not the number of responses containing the id. -/
theorem claim_c1 (survey : Survey) (i : Nat) (q : Question) :
    survey.questions[i]? = some q →
    ∃ r : QuestionResult,
      (aggregateSurvey survey).questions[i]? = some r ∧
      r.id = q.id ∧ r.text = q.text ∧
      (q.type = "scale" →
        r.body = .scaleBody (specParsedScaleValues survey.responses q.id)
          (specScaleMean (specParsedScaleValues survey.responses q.id))) ∧
      ((q.type = "single-choice" ∨ q.type = "multiple-choice") →
        ∃ entries, r.body = .choiceBody entries ∧
          ∀ o ∈ q.options, ∃ e ∈ entries, e.id = o.id ∧
            e.count = (survey.responses.map
              (fun resp => specAnswerOccurrences (jsGet resp.data q.id) o.id)).sum) := by
  intro hq
  refine ⟨aggregateQuestion survey.responses q, ?_, rfl, rfl, ?_, ?_⟩
  · show (survey.questions.map (aggregateQuestion survey.responses))[i]? = _
    rw [List.getElem?_map, hq]
    rfl
  · intro htype
    show (aggregateQuestion survey.responses q).body = _
    unfold aggregateQuestion
    rw [htype]
    dsimp only
    rw [scaleMean_eq_spec, scaleVals_eq_spec]
    rfl
  · intro htype
    rcases htype with h | h
    · refine ⟨choiceResults survey.responses q.id q.options, ?_, ?_⟩
      · show (aggregateQuestion survey.responses q).body = _
        unfold aggregateQuestion
        rw [h]
        rfl
      · intro o ho
        exact choiceResults_spec survey.responses q.id q.options o ho
    · refine ⟨choiceResults survey.responses q.id q.options, ?_, ?_⟩
      · show (aggregateQuestion survey.responses q).body = _
        unfold aggregateQuestion
        rw [h]
        rfl
      · intro o ho
        exact choiceResults_spec survey.responses q.id q.options o ho

/-- C1 counterexample: one stored response answering `[a, a]` makes
the reported count for option `a` equal to 2, while only 1 response
contains that option id — so "count of responses in which that option
id appears" is false as stated. -/
theorem claim_c1_counterexample :
    (aggregateSurvey dupAnswerSurvey).questions[0]? =
      some { id := "q0", text := "Pick one", type := "single-choice",
             body := .choiceBody [{ id := "a", label := "A", count := 2 }] } ∧
    specResponsesContaining dupAnswerSurvey.responses "q0" "a" = 1 ∧
    dupAnswerSurvey.responses.length = 1 ∧ (2 : Nat) ≠ 1 :=
  ⟨rfl, rfl, rfl, by decide⟩

/-- C1 witness: on the sample survey, scale answers `[2, 4, 6]` give
average 4.00 (400 hundredths) and choice answers `[a, a, b]` give
counts a: 2, b: 1, with output in question order. -/
theorem claim_c1_witness :
    sampleSurvey.questions[1]? = some sampleChoiceQ ∧
    (∃ r : QuestionResult,
      (aggregateSurvey sampleSurvey).questions[1]? = some r ∧
      r.id = sampleChoiceQ.id ∧ r.text = sampleChoiceQ.text ∧
      (sampleChoiceQ.type = "scale" →
        r.body = .scaleBody (specParsedScaleValues sampleSurvey.responses sampleChoiceQ.id)
          (specScaleMean (specParsedScaleValues sampleSurvey.responses sampleChoiceQ.id))) ∧
      ((sampleChoiceQ.type = "single-choice" ∨ sampleChoiceQ.type = "multiple-choice") →
        ∃ entries, r.body = .choiceBody entries ∧
          ∀ o ∈ sampleChoiceQ.options, ∃ e ∈ entries, e.id = o.id ∧
            e.count = (sampleSurvey.responses.map
              (fun resp => specAnswerOccurrences (jsGet resp.data sampleChoiceQ.id) o.id)).sum)) ∧
    specParsedScaleValues sampleSurvey.responses "q_scale" = [2, 4, 6] ∧
    specScaleMean [2, 4, 6] = some 400 ∧
    scaleVals sampleSurvey.responses "q_scale" = [2, 4, 6] ∧
    (aggregateSurvey sampleSurvey).questions[1]? =
      some { id := "q_choice", text := "Pick one", type := "single-choice",
             body := .choiceBody [{ id := "a", label := "A", count := 2 },
                                  { id := "b", label := "B", count := 1 }] } := by
  refine ⟨rfl, claim_c1 sampleSurvey 1 sampleChoiceQ rfl, rfl, ?_, rfl, rfl⟩
  norm_num [specScaleMean]

end SaySomething
